import Mathlib

set_option linter.unusedVariables false

/-!
# Verification of the LVM snapshotter's command execution and volume lifecycle

This development embeds `snapshots/lvm/lvm.go` of the containerd LVM
snapshotter.  The repository file carries two revisions of the package:

* revision `V1` passes a `sync.Mutex` to every lifecycle operation (the
  executor `runCommand` itself takes no lock), and exposes a standalone
  `formatVolume`; volume removal shells out to `umount` and tolerates a
  "not mounted" failure;
* revision `V2` serializes inside `runCommand` through a package-level
  mutex, inlines activation and formatting into `createLVMVolume`, and
  removes volumes via `blkdeactivate` (no tolerated failure).

External commands are modelled by an oracle (`Env`) giving, for each
command, argument list and retry attempt index, the combined output and
the error message of that attempt (`none` = the process exited with
status zero).  Lifecycle operations additionally return the ordered list
of command invocations they issued, so that ordering and omission of
steps can be stated.  Mutual exclusion is treated separately by a small
interleaving semantics at the end of the file.
-/

/-- A single character-list starts with the pattern `pat`. -/
def startsWithList : List Char → List Char → Bool
  | [], _ => true
  | _ :: _, [] => false
  | a :: as, b :: bs => a == b && startsWithList as bs

/-- `pat` occurs as a contiguous run inside `l`. -/
def containsList (pat : List Char) : List Char → Bool
  | [] => pat.isEmpty
  | c :: rest => startsWithList pat (c :: rest) || containsList pat rest

/-- Models Go `strings.Contains s sub`. -/
def strContains (s sub : String) : Bool :=
  containsList sub.toList s.toList

/-- Models Go `strings.HasPrefix s pat`. -/
def strStartsWith (pat s : String) : Bool :=
  startsWithList pat.toList s.toList

/-- Models Go `unicode.IsSpace` (the whitespace set used by
`strings.TrimSpace`). -/
def isSpaceGo (c : Char) : Bool :=
  c = ' ' || c = '\t' || c = '\n' || c = '\r' ||
  c = Char.ofNat 11 || c = Char.ofNat 12 ||
  c = Char.ofNat 0x85 || c = Char.ofNat 0xA0 || c = Char.ofNat 0x1680 ||
  (0x2000 ≤ c.val && c.val ≤ 0x200A) ||
  c = Char.ofNat 0x2028 || c = Char.ofNat 0x2029 ||
  c = Char.ofNat 0x202F || c = Char.ofNat 0x205F || c = Char.ofNat 0x3000

/-- Models Go `strings.TrimSpace`: drop whitespace from both ends. -/
def trimSpace (s : String) : String :=
  ⟨(((s.toList.dropWhile isSpaceGo).reverse.dropWhile isSpaceGo).reverse)⟩

/-- Split a character list at every `'/'`; the result is never empty. -/
def splitOnSlash : List Char → List (List Char)
  | [] => [[]]
  | c :: rest =>
    match splitOnSlash rest with
    | [] => [[]]
    | s :: ss => if c = '/' then [] :: s :: ss else (c :: s) :: ss

/-- The segment-processing loop of Go `path/filepath.Clean`: empty and
`"."` segments are dropped, `".."` pops the segment stack (or is
dropped at the root / kept when the path is relative and nothing can be
popped), anything else is pushed. -/
def cleanCore (rooted : Bool) (stack : List (List Char)) : List (List Char) → List (List Char)
  | [] => stack.reverse
  | s :: rest =>
    if s = [] then cleanCore rooted stack rest
    else if s = ['.'] then cleanCore rooted stack rest
    else if s = ['.', '.'] then
      match stack with
      | [] => if rooted then cleanCore rooted [] rest else cleanCore rooted [s] rest
      | t :: ts =>
        if t = ['.', '.'] then cleanCore rooted (s :: t :: ts) rest else cleanCore rooted ts rest
    else cleanCore rooted (s :: stack) rest

/-- Interleave `'/'` between segments. -/
def intercalateSlash : List (List Char) → List Char
  | [] => []
  | [s] => s
  | s :: t :: rest => s ++ '/' :: intercalateSlash (t :: rest)

/-- Reassemble a cleaned path from its processed segments. -/
def cleanAssemble (rooted : Bool) (body : List Char) : String :=
  if rooted then (if body = [] then "/" else ⟨'/' :: body⟩)
  else (if body = [] then "." else ⟨body⟩)

/-- Models Go `path/filepath.Clean` (lexical cleaning with `'/'` as the
separator). -/
def clean (s : String) : String :=
  if s = "" then "."
  else
    let rooted : Bool := s.toList.head? = some '/'
    cleanAssemble rooted (intercalateSlash (cleanCore rooted [] (splitOnSlash s.toList)))

/-- Models Go `path/filepath.Join`: drop leading empty elements, join
the rest with `'/'`, then `Clean` the result. -/
def filepathJoin (elems : List String) : String :=
  match elems.dropWhile (fun e => e = "") with
  | [] => ""
  | es => clean ⟨intercalateSlash (es.map String.toList)⟩

/-- Message composition of `github.com/pkg/errors.Wrap`: the wrapped
error's `Error()` is `msg ++ ": " ++ cause`. -/
def errWrap (msg cause : String) : String :=
  msg ++ ": " ++ cause

/-- The trust boundary the spec states for caller-supplied names: a name
that is a single plain path segment (non-empty, no separator, not a dot
segment). -/
def plainName (s : String) : Prop :=
  s.toList ≠ [] ∧ '/' ∉ s.toList ∧ s.toList ≠ ['.'] ∧ s.toList ≠ ['.', '.']

instance (s : String) : Decidable (plainName s) := by
  unfold plainName; infer_instance

/-- Result of one spawned attempt of an external command: combined
standard output/error text and, when the attempt failed, the Go error
message (`exec.ExitError.Error()` strings such as `"exit status 5"`). -/
structure CmdResult where
  output : String
  error : Option String
deriving DecidableEq

/-- The external volume-manager toolset, modelled as an oracle: the
result of running `cmd` with `args` on the given (0-based) retry
attempt. -/
def Env : Type := String → List String → Nat → CmdResult

/-- One issued external command: executable name and ordered argument
list. -/
structure Invocation where
  cmd : String
  args : List String
deriving DecidableEq

/-- `snapshots.Kind` of the snapshot framework (opaque to this package;
the `kind` parameter is accepted but unused by the code). -/
inductive Kind
  | unknown
  | view
  | active
  | committed
deriving DecidableEq

/-- A `sync.Mutex` value as it appears in revision `V1`'s signatures.
Go copies it at every call (it is passed by value); the identity field
records which copy a caller holds.  Locking has no effect on computed
results and is treated by the interleaving semantics at the end of this
file. -/
structure Mutex where
  id : Nat
deriving DecidableEq

/-- `const retries = 10` -/
def retries : Nat := 10

/-- The retry loop of `runCommand`, instrumented with the list of
attempt indices at which the process was spawned.  `fuel` is
`retries - ret` at entry, so the guard `ret < retries` is exactly the
Go loop condition; `output`/`err` carry the values of the Go variables
across iterations.  On a successful attempt the loop breaks. -/
def runAttempts (att : Nat → CmdResult) : Nat → Nat → String → Option String → String × Option String × List Nat
  | 0, _, output, err => (output, err, [])
  | fuel + 1, ret, output, err =>
    if ret < retries then
      let r := att ret
      match r.error with
      | none => (r.output, none, [ret])
      | some e =>
        let rest := runAttempts att fuel (ret + 1) r.output (some e)
        (rest.1, rest.2.1, ret :: rest.2.2)
    else (output, err, [])

/-- `runCommand`, instrumented: combined trimmed output, final error,
and the indices of the attempts that actually spawned a process.  The
first two components are exactly what the Go function returns. -/
def runCommandFull (env : Env) (cmd : String) (args : List String) : String × Option String × List Nat :=
  let r := runAttempts (env cmd args) retries 0 "" none
  (trimSpace r.1, r.2.1, r.2.2)

/-- `func runCommand(cmd string, args []string) (string, error)`:
retry up to `retries` attempts, return the trimmed combined output and
the last error. -/
def runCommand (env : Env) (cmd : String) (args : List String) : String × Option String :=
  ((runCommandFull env cmd args).1, (runCommandFull env cmd args).2.1)

/-- The `lvcreate` argument assembly shared verbatim by both revisions
of `createLVMVolume`: snapshot form when a parent is given, thin-volume
form otherwise. -/
def lvcreateArgs (lvname vgname lvpoolname size parent : String) : List String :=
  if parent ≠ "" then ["--name", lvname, "--snapshot", vgname ++ "/" ++ parent]
  else ["--virtualsize", size, "--name", lvname, "--thin", vgname ++ "/" ++ lvpoolname]

namespace V1

/-- `func formatVolume(vgname string, lvname string, fstype string) error`
(first revision): choose filesystem-specific flags, then run
`mkfs.<fstype>` against `filepath.Join("/dev/", vgname, lvname)`.  Only
the error is returned; the invocation is recorded in the second
component. -/
def formatVolume (env : Env) (vgname lvname fstype : String) : Option String × List Invocation :=
  let mkfsArgs : List String :=
    if fstype = "ext4" then ["-E", "nodiscard,lazy_itable_init=0,lazy_journal_init=0"]
    else if fstype = "xfs" then ["-K"]
    else []
  let cmd := "mkfs." ++ fstype
  let mkfsArgs := mkfsArgs ++ [filepathJoin ["/dev/", vgname, lvname]]
  ((runCommand env cmd mkfsArgs).2, [Invocation.mk cmd mkfsArgs])

/-- `func createLVMVolume(lock sync.Mutex, lvname, vgname, lvpoolname,
size, parent string, kind snapshots.Kind) (string, error)` (first
revision): build the `lvcreate` arguments from the parent, run it, and
wrap a failure as a create-step error.  The `lock` parameter is the
by-value `sync.Mutex` copy. -/
def createLVMVolume (env : Env) (lock : Mutex) (lvname vgname lvpoolname size parent : String)
    (kind : Kind) : (String × Option String) × List Invocation :=
  let args := lvcreateArgs lvname vgname lvpoolname size parent
  let r := runCommand env "lvcreate" args
  match r.2 with
  | some e => ((r.1, some (errWrap "Unable to create volume" e)), [Invocation.mk "lvcreate" args])
  | none => (r, [Invocation.mk "lvcreate" args])

/-- `func removeLVMVolume(lock sync.Mutex, lvname string, vgname string)`
(first revision): `umount --lazy --force --all-targets /dev/<vg>/<lv>`,
tolerating a failure whose output contains `"not mounted"`, then
`lvremove -y <vg>/<lv>`. -/
def removeLVMVolume (env : Env) (lock : Mutex) (lvname vgname : String) :
    (String × Option String) × List Invocation :=
  let args : List String := ["--lazy", "--force", "--all-targets", filepathJoin ["/dev", vgname, lvname]]
  let r := runCommand env "umount" args
  match r.2 with
  | some e =>
    if strContains r.1 "not mounted" then
      let rargs : List String := ["-y", vgname ++ "/" ++ lvname]
      (runCommand env "lvremove" rargs, [Invocation.mk "umount" args, Invocation.mk "lvremove" rargs])
    else
      ((r.1, some (errWrap "Unable to unmount volume" e)), [Invocation.mk "umount" args])
  | none =>
    let rargs : List String := ["-y", vgname ++ "/" ++ lvname]
    (runCommand env "lvremove" rargs, [Invocation.mk "umount" args, Invocation.mk "lvremove" rargs])

/-- `func createLogicalThinPool(lock sync.Mutex, vgname string, lvpool string)`
(first revision): `lvcreate --thinpool <pool> --extents 90%FREE <vg>`,
remapping the error whose message is exactly `"exit status 5"` to
success. -/
def createLogicalThinPool (env : Env) (lock : Mutex) (vgname lvpool : String) :
    (String × Option String) × List Invocation :=
  let args : List String := ["--thinpool", lvpool, "--extents", "90%FREE", vgname]
  let r := runCommand env "lvcreate" args
  let res :=
    match r.2 with
    | some e => if e = "exit status 5" then (r.1, none) else r
    | none => r
  (res, [Invocation.mk "lvcreate" args])

end V1

namespace V2

/-- `func toggleactivateLV(vgname string, lvname string, activate bool)`
(second revision): `lvchange -K <vg>/<lv> -a y|n`. -/
def toggleactivateLV (env : Env) (vgname lvname : String) (activate : Bool) :
    (String × Option String) × List Invocation :=
  let args : List String := ["-K", vgname ++ "/" ++ lvname, "-a"]
  let args := if activate then args ++ ["y"] else args ++ ["n"]
  (runCommand env "lvchange" args, [Invocation.mk "lvchange" args])

/-- `func createLVMVolume(lvname, vgname, lvpoolname, size, fstype,
parent string, kind snapshots.Kind) (string, error)` (second revision):
`lvcreate` (snapshot form when a parent is given, thin-volume form
otherwise), then activation, then — only when there is no parent —
`mkfs.<fstype>` against `filepath.Join("/dev/", vgname, lvname)`.
Create and activation failures are wrapped with step-identifying
messages and returned at once. -/
def createLVMVolume (env : Env) (lvname vgname lvpoolname size fstype parent : String)
    (kind : Kind) : (String × Option String) × List Invocation :=
  let args := lvcreateArgs lvname vgname lvpoolname size parent
  let r := runCommand env "lvcreate" args
  match r.2 with
  | some e => ((r.1, some (errWrap "Unable to create volume" e)), [Invocation.mk "lvcreate" args])
  | none =>
    let a := toggleactivateLV env vgname lvname true
    match a.1.2 with
    | some e =>
      ((a.1.1, some (errWrap "Unable to activate thin volume" e)),
        Invocation.mk "lvcreate" args :: a.2)
    | none =>
      if parent = "" then
        let mkfsArgs : List String :=
          if fstype = "ext4" then ["-E", "nodiscard,lazy_itable_init=0,lazy_journal_init=0"]
          else if fstype = "xfs" then ["-K"]
          else []
        let cmd := "mkfs." ++ fstype
        let mkfsArgs := mkfsArgs ++ [filepathJoin ["/dev/", vgname, lvname]]
        (runCommand env cmd mkfsArgs,
          Invocation.mk "lvcreate" args :: a.2 ++ [Invocation.mk cmd mkfsArgs])
      else (a.1, Invocation.mk "lvcreate" args :: a.2)

/-- `func removeLVMVolume(lvname string, vgname string)` (second
revision): `blkdeactivate -u /dev/<vg>/<lv>`; any failure aborts with a
wrapped unmount error; otherwise `lvremove -y <vg>/<lv>`. -/
def removeLVMVolume (env : Env) (lvname vgname : String) :
    (String × Option String) × List Invocation :=
  let args : List String := ["-u", filepathJoin ["/dev", vgname, lvname]]
  let r := runCommand env "blkdeactivate" args
  match r.2 with
  | some e =>
    ((r.1, some (errWrap "Unable to unmount volume" e)), [Invocation.mk "blkdeactivate" args])
  | none =>
    let rargs : List String := ["-y", vgname ++ "/" ++ lvname]
    (runCommand env "lvremove" rargs,
      [Invocation.mk "blkdeactivate" args, Invocation.mk "lvremove" rargs])

/-- `func createLogicalThinPool(vgname string, lvpool string)` (second
revision): identical logic to the first revision, without the lock
parameter. -/
def createLogicalThinPool (env : Env) (vgname lvpool : String) :
    (String × Option String) × List Invocation :=
  let args : List String := ["--thinpool", lvpool, "--extents", "90%FREE", vgname]
  let r := runCommand env "lvcreate" args
  let res :=
    match r.2 with
    | some e => if e = "exit status 5" then (r.1, none) else r
    | none => r
  (res, [Invocation.mk "lvcreate" args])

end V2

/-! ## Interleaving semantics for mutual exclusion

`runCommand` of revision `V2` acquires the package-level mutex before
its first attempt and releases it after the loop, so one invocation is
the action sequence `acquire g, (beginSpawn, endSpawn)*, release g`.
Revision `V1` operations lock the `sync.Mutex` they received **by
value**: the Go call copies the mutex, so every call locks a fresh,
private copy — the same trace shape but with a per-call mutex identity.
A command is *in flight* between its `beginSpawn` and `endSpawn`. -/

/-- Atomic actions of a process interacting with mutexes and spawning
external commands. -/
inductive Act
  | acquire (m : Nat)
  | release (m : Nat)
  | beginSpawn
  | endSpawn
deriving DecidableEq

/-- A configuration: the remaining action list of every live process,
and the multiset of currently held mutexes. -/
structure Config where
  procs : Multiset (List Act)
  held : Multiset Nat
deriving DecidableEq

/-- Interleaving small-step semantics: any process may perform its next
action; acquiring blocks while the mutex is held. -/
inductive Step : Config → Config → Prop
  | acquire {c : Config} {m : Nat} {rest : List Act}
      (hp : (Act.acquire m :: rest) ∈ c.procs) (hm : m ∉ c.held) :
      Step c ⟨rest ::ₘ c.procs.erase (Act.acquire m :: rest), m ::ₘ c.held⟩
  | release {c : Config} {m : Nat} {rest : List Act}
      (hp : (Act.release m :: rest) ∈ c.procs) :
      Step c ⟨rest ::ₘ c.procs.erase (Act.release m :: rest), c.held.erase m⟩
  | beginSpawn {c : Config} {rest : List Act}
      (hp : (Act.beginSpawn :: rest) ∈ c.procs) :
      Step c ⟨rest ::ₘ c.procs.erase (Act.beginSpawn :: rest), c.held⟩
  | endSpawn {c : Config} {rest : List Act}
      (hp : (Act.endSpawn :: rest) ∈ c.procs) :
      Step c ⟨rest ::ₘ c.procs.erase (Act.endSpawn :: rest), c.held⟩

/-- Reachability under the interleaving semantics. -/
def Reachable : Config → Config → Prop :=
  Relation.ReflTransGen Step

/-- Number of external command processes currently in flight: processes
whose next pending action is the end of a spawned attempt. -/
def inFlight (c : Config) : Nat :=
  Multiset.countP (fun p => p.head? = some Act.endSpawn) c.procs

/-- The body of a command invocation holding mutex `m`: `k + 1` spawned
attempts (`runCommand` always spawns at least once; `spawnSeq m k` has
`k + 1` attempt pairs) followed by the release of `m`. -/
def spawnSeq (m : Nat) : Nat → List Act
  | 0 => [Act.beginSpawn, Act.endSpawn, Act.release m]
  | k + 1 => Act.beginSpawn :: Act.endSpawn :: spawnSeq m k

/-- The action trace of one `runCommand` invocation of revision `V2`
(equally: of one `V1` operation with its copied lock): acquire `m`,
spawn `k + 1` attempts, release `m`. -/
def lockedTrace (m k : Nat) : List Act :=
  Act.acquire m :: spawnSeq m k

/-- A process is inside its critical section (it has acquired mutex `g`
and not yet released it), judged from the head of its remaining
actions; meaningful for residuals of `lockedTrace g _`. -/
def critHead (g : Nat) (p : List Act) : Bool :=
  match p with
  | Act.beginSpawn :: _ => true
  | Act.endSpawn :: _ => true
  | Act.release m :: _ => m == g
  | _ => false

/-- The states a process can be in while executing `lockedTrace g _`:
its remaining action list is one of these residuals. -/
def residualShape (g : Nat) (p : List Act) : Prop :=
  p = [] ∨ (∃ k, p = lockedTrace g k) ∨ (∃ k, p = spawnSeq g k) ∨
    (∃ k, p = Act.endSpawn :: spawnSeq g k) ∨ p = [Act.release g] ∨
    p = [Act.endSpawn, Act.release g]

/-- The inductive invariant for serialization: every process is a
residual of a `lockedTrace g _`, at most one process is inside the
critical section, and `g` is held exactly as many times (0 or 1) as
there are processes inside the critical section. -/
structure SerialInv (g : Nat) (c : Config) : Prop where
  shapes : ∀ p ∈ c.procs, residualShape g p
  crit_le : Multiset.countP (fun p => critHead g p = true) c.procs ≤ 1
  held_count : c.held.count g = Multiset.countP (fun p => critHead g p = true) c.procs

/-! Concrete environments used by witnesses and counterexamples. -/

/-- An environment where every attempt of every command fails with
output and error naming the attempt. -/
def envAlwaysFail : Env :=
  fun _ _ i => ⟨"fail" ++ Nat.repr i, some ("err" ++ Nat.repr i)⟩

/-- An environment where every command fails twice and then succeeds. -/
def envFlaky : Env :=
  fun _ _ i => if i < 2 then ⟨"transient", some "exit status 1"⟩ else ⟨" ok \n", none⟩

/-- An environment where `lvcreate` always fails with `"exit status 5"`
(the thin pool already exists) and everything else succeeds. -/
def envPoolExists : Env :=
  fun cmd _ _ =>
    if cmd = "lvcreate" then ⟨" pool already exists ", some "exit status 5"⟩
    else ⟨"", none⟩

/-- An environment where the unmount/deactivate tool fails reporting
that the device is not mounted, and every other command succeeds. -/
def envNotMounted : Env :=
  fun cmd _ _ =>
    if cmd = "umount" || cmd = "blkdeactivate" then
      ⟨"umount: /dev/vg0/lv1: not mounted.", some "exit status 32"⟩
    else ⟨"removed", none⟩

/-- An environment where the unmount tool fails with an unrelated
error, and every other command succeeds. -/
def envUnmountBusy : Env :=
  fun cmd _ _ =>
    if cmd = "umount" then ⟨"umount: /dev/vg0/lv1: target is busy.", some "exit status 32"⟩
    else ⟨"removed", none⟩

/-- An environment where every command succeeds with empty output. -/
def envAllOk : Env :=
  fun _ _ _ => ⟨"", none⟩

/-- An environment where `lvcreate` fails and everything else
succeeds. -/
def envCreateFails : Env :=
  fun cmd _ _ =>
    if cmd = "lvcreate" then ⟨"  Volume group \"vg0\" not found", some "exit status 5"⟩
    else ⟨"", none⟩

/-- An environment where `lvchange` (activation) fails and everything
else succeeds. -/
def envActivateFails : Env :=
  fun cmd _ _ =>
    if cmd = "lvchange" then ⟨"  Failed to activate", some "exit status 5"⟩
    else ⟨"ok", none⟩

/-! ## Path lemmas -/

theorem splitOnSlash_ne_nil (l : List Char) : splitOnSlash l ≠ [] := by
  cases l with
  | nil => simp [splitOnSlash]
  | cons c rest =>
    simp only [splitOnSlash]
    cases h : splitOnSlash rest with
    | nil => simp
    | cons s ss => by_cases hc : c = '/' <;> simp [hc]

theorem splitOnSlash_no_slash {a : List Char} (h : '/' ∉ a) : splitOnSlash a = [a] := by
  induction a with
  | nil => rfl
  | cons c rest ih =>
    have hc : ¬(c = '/') := fun e => h (e ▸ List.mem_cons_self c rest)
    have hr : '/' ∉ rest := fun m => h (List.mem_cons_of_mem _ m)
    simp [splitOnSlash, ih hr, hc]

theorem splitOnSlash_append {a : List Char} (rest : List Char) (h : '/' ∉ a) :
    splitOnSlash (a ++ '/' :: rest) = a :: splitOnSlash rest := by
  induction a with
  | nil =>
    simp only [List.nil_append, splitOnSlash]
    cases hr : splitOnSlash rest with
    | nil => exact absurd hr (splitOnSlash_ne_nil rest)
    | cons s ss => simp
  | cons c a' ih =>
    have hc : ¬(c = '/') := fun e => h (e ▸ List.mem_cons_self c a')
    have ha : '/' ∉ a' := fun m => h (List.mem_cons_of_mem _ m)
    simp only [List.cons_append, splitOnSlash, List.append_eq]
    rw [ih ha]
    simp [hc]

theorem cleanCore_empty_seg (r : Bool) (st : List (List Char)) (rest : List (List Char)) :
    cleanCore r st ([] :: rest) = cleanCore r st rest := by
  simp [cleanCore]

theorem cleanCore_plain {s : List Char} (r : Bool) (st rest : List (List Char))
    (h1 : s ≠ []) (h2 : s ≠ ['.']) (h3 : s ≠ ['.', '.']) :
    cleanCore r st (s :: rest) = cleanCore r (s :: st) rest := by
  simp [cleanCore, h1, h2, h3]

theorem filepathJoin_dev_slash {vg lv : String} (hvg : plainName vg) (hlv : plainName lv) :
    filepathJoin ["/dev/", vg, lv] = "/dev/" ++ vg ++ "/" ++ lv := by
  obtain ⟨hvg1, hvg2, hvg3, hvg4⟩ := hvg
  obtain ⟨hlv1, hlv2, hlv3, hlv4⟩ := hlv
  have hsplit : splitOnSlash ('/' :: 'd' :: 'e' :: 'v' :: '/' :: '/' :: (vg.toList ++ '/' :: lv.toList))
      = [[], ['d', 'e', 'v'], [], vg.toList, lv.toList] := by
    show splitOnSlash
        ([] ++ '/' :: (['d', 'e', 'v'] ++ '/' :: ([] ++ '/' :: (vg.toList ++ '/' :: lv.toList))))
      = _
    rw [splitOnSlash_append _ (by simp), splitOnSlash_append _ (by decide),
      splitOnSlash_append _ (by simp), splitOnSlash_append _ hvg2, splitOnSlash_no_slash hlv2]
  have key : filepathJoin ["/dev/", vg, lv]
      = cleanAssemble true (intercalateSlash (cleanCore true []
          (splitOnSlash ('/' :: 'd' :: 'e' :: 'v' :: '/' :: '/' :: (vg.toList ++ '/' :: lv.toList))))) := rfl
  rw [key, hsplit, cleanCore_empty_seg, cleanCore_plain _ _ _ (by decide) (by decide) (by decide),
    cleanCore_empty_seg, cleanCore_plain _ _ _ hvg1 hvg3 hvg4, cleanCore_plain _ _ _ hlv1 hlv3 hlv4]
  show String.mk ('/' :: (['d', 'e', 'v'] ++ '/' :: (vg.toList ++ '/' :: lv.toList))) = _
  apply String.ext
  simp [String.data_append]

theorem filepathJoin_dev {vg lv : String} (hvg : plainName vg) (hlv : plainName lv) :
    filepathJoin ["/dev", vg, lv] = "/dev/" ++ vg ++ "/" ++ lv := by
  obtain ⟨hvg1, hvg2, hvg3, hvg4⟩ := hvg
  obtain ⟨hlv1, hlv2, hlv3, hlv4⟩ := hlv
  have hsplit : splitOnSlash ('/' :: 'd' :: 'e' :: 'v' :: '/' :: (vg.toList ++ '/' :: lv.toList))
      = [[], ['d', 'e', 'v'], vg.toList, lv.toList] := by
    show splitOnSlash
        ([] ++ '/' :: (['d', 'e', 'v'] ++ '/' :: (vg.toList ++ '/' :: lv.toList)))
      = _
    rw [splitOnSlash_append _ (by simp), splitOnSlash_append _ (by decide),
      splitOnSlash_append _ hvg2, splitOnSlash_no_slash hlv2]
  have key : filepathJoin ["/dev", vg, lv]
      = cleanAssemble true (intercalateSlash (cleanCore true []
          (splitOnSlash ('/' :: 'd' :: 'e' :: 'v' :: '/' :: (vg.toList ++ '/' :: lv.toList))))) := rfl
  rw [key, hsplit, cleanCore_empty_seg, cleanCore_plain _ _ _ (by decide) (by decide) (by decide),
    cleanCore_plain _ _ _ hvg1 hvg3 hvg4, cleanCore_plain _ _ _ hlv1 hlv3 hlv4]
  show String.mk ('/' :: (['d', 'e', 'v'] ++ '/' :: (vg.toList ++ '/' :: lv.toList))) = _
  apply String.ext
  simp [String.data_append]

/-! ## Retry loop lemmas -/

theorem runAttempts_all_fail (att : Nat → CmdResult) :
    ∀ fuel ret output err, ret + fuel = retries → 0 < fuel →
    (∀ i, ret ≤ i → i < retries → (att i).error ≠ none) →
    runAttempts att fuel ret output err =
      ((att (retries - 1)).output, (att (retries - 1)).error, List.range' ret fuel) := by
  intro fuel
  induction fuel with
  | zero => intro ret output err hsum hpos hfail; omega
  | succ f ih =>
    intro ret output err hsum hpos hfail
    have hret : ret < retries := by omega
    simp only [runAttempts, if_pos hret]
    cases he : (att ret).error with
    | none => exact absurd he (hfail ret le_rfl hret)
    | some e =>
      by_cases hf : f = 0
      · subst hf
        have h9 : retries - 1 = ret := by omega
        rw [h9, he, List.range'_one]
        rfl
      · have hf1 : 0 < f := Nat.pos_of_ne_zero hf
        show ((runAttempts att f (ret + 1) (att ret).output (some e)).1,
          (runAttempts att f (ret + 1) (att ret).output (some e)).2.1,
          ret :: (runAttempts att f (ret + 1) (att ret).output (some e)).2.2) = _
        rw [ih (ret + 1) (att ret).output (some e) (by omega) hf1
          (fun i h1 h2 => hfail i (by omega) h2), List.range'_succ]

theorem runAttempts_first_success (att : Nat → CmdResult) :
    ∀ fuel ret output err k, ret + fuel = retries → ret ≤ k → k < retries →
    (∀ i, ret ≤ i → i < k → (att i).error ≠ none) → (att k).error = none →
    runAttempts att fuel ret output err =
      ((att k).output, none, List.range' ret (k + 1 - ret)) := by
  intro fuel
  induction fuel with
  | zero => intro ret output err k hsum hk1 hk2 _ _; omega
  | succ f ih =>
    intro ret output err k hsum hk1 hk2 hfail hsucc
    have hret : ret < retries := by omega
    simp only [runAttempts, if_pos hret]
    by_cases hrk : ret = k
    · subst hrk
      rw [hsucc]
      have h1 : ret + 1 - ret = 1 := by omega
      rw [h1, List.range'_one]
    · have hrk2 : ret < k := lt_of_le_of_ne hk1 hrk
      cases he : (att ret).error with
      | none => exact absurd he (hfail ret le_rfl hrk2)
      | some e =>
        show ((runAttempts att f (ret + 1) (att ret).output (some e)).1,
          (runAttempts att f (ret + 1) (att ret).output (some e)).2.1,
          ret :: (runAttempts att f (ret + 1) (att ret).output (some e)).2.2) = _
        rw [ih (ret + 1) (att ret).output (some e) k (by omega) (by omega) hk2
          (fun i h1 h2 => hfail i (by omega) h2) hsucc]
        have h1 : k + 1 - ret = (k + 1 - (ret + 1)) + 1 := by omega
        rw [h1, List.range'_succ]

/-- **C2**: a command whose every attempt fails is attempted exactly 10
times — the spawned attempts are exactly attempts `0..9` — and the
executor then returns the 10th attempt's (trimmed) combined output
together with the 10th attempt's error. -/
theorem runCommand_retry_ceiling (env : Env) (cmd : String) (args : List String)
    (h : ∀ i, i < retries → (env cmd args i).error ≠ none) :
    runCommandFull env cmd args =
      (trimSpace (env cmd args 9).output, (env cmd args 9).error, List.range 10) := by
  unfold runCommandFull
  rw [runAttempts_all_fail (env cmd args) retries 0 "" none rfl (by norm_num [retries])
    (fun i _ h2 => h i h2)]
  norm_num [retries, List.range_eq_range']

/-- Witness for **C2** at a concrete always-failing environment. -/
theorem runCommand_retry_ceiling_witness :
    runCommandFull envAlwaysFail "lvcreate" ["-T"] =
      ("fail9", some "err9", [0, 1, 2, 3, 4, 5, 6, 7, 8, 9]) := by
  rw [runCommand_retry_ceiling envAlwaysFail "lvcreate" ["-T"]
    (fun i _ => Option.some_ne_none _)]
  decide

/-- **C6**: a command that fails on attempts `0..k-1` (`k < 10`) and
succeeds on attempt `k` stops retrying at the first success — the
spawned attempts are exactly `0..k` — and the executor returns a `none`
error with the whitespace-trimmed combined output of the successful
attempt. -/
theorem runCommand_retry_success (env : Env) (cmd : String) (args : List String) (k : Nat)
    (hk : k < retries)
    (hfail : ∀ i, i < k → (env cmd args i).error ≠ none)
    (hsucc : (env cmd args k).error = none) :
    runCommandFull env cmd args = (trimSpace (env cmd args k).output, none, List.range (k + 1)) := by
  unfold runCommandFull
  rw [runAttempts_first_success (env cmd args) retries 0 "" none k rfl (Nat.zero_le k) hk
    (fun i _ h2 => hfail i h2) hsucc]
  norm_num [List.range_eq_range']

/-- Witness for **C6** at a concrete environment failing twice and then
succeeding: three attempts, trimmed output of the successful one. -/
theorem runCommand_retry_success_witness :
    runCommandFull envFlaky "vgs" ["vg0"] = ("ok", none, [0, 1, 2]) := by
  rw [runCommand_retry_success envFlaky "vgs" ["vg0"] 2 (by norm_num [retries])
    (fun i hi => by simp [envFlaky, hi]) rfl]
  decide

/-! ## Thin pool creation (C4) -/

/-- **C4**: when the underlying `lvcreate --thinpool` command fails with
exactly the error `"exit status 5"`, thin-pool creation returns success
(`none` error) together with the captured output; any other error is
returned to the caller unchanged.  Stated for both revisions (their
bodies are identical). -/
theorem createLogicalThinPool_exit_status_5 (env : Env) (lock : Mutex) (vgname lvpool : String)
    (e : String)
    (h : (runCommand env "lvcreate" ["--thinpool", lvpool, "--extents", "90%FREE", vgname]).2 = some e) :
    (V2.createLogicalThinPool env vgname lvpool).1 =
      ((runCommand env "lvcreate" ["--thinpool", lvpool, "--extents", "90%FREE", vgname]).1,
        if e = "exit status 5" then none else some e) ∧
    (V1.createLogicalThinPool env lock vgname lvpool).1 =
      ((runCommand env "lvcreate" ["--thinpool", lvpool, "--extents", "90%FREE", vgname]).1,
        if e = "exit status 5" then none else some e) := by
  simp only [V2.createLogicalThinPool, V1.createLogicalThinPool, h]
  by_cases he : e = "exit status 5"
  · simp [he]
  · simp [he]
    rw [← h]

/-- Witness for **C4**: every attempt fails with `"exit status 5"`, the
operation nevertheless reports success with the trimmed output. -/
theorem createLogicalThinPool_exit_status_5_witness :
    (V2.createLogicalThinPool envPoolExists "vg0" "pool0").1 = ("pool already exists", none) := by
  have h := createLogicalThinPool_exit_status_5 envPoolExists ⟨0⟩ "vg0" "pool0" "exit status 5"
    (by decide)
  rw [h.1]
  decide

/-! ## Structure of `V2.createLVMVolume` -/

theorem startsWithList_self_append (a b : List Char) : startsWithList a (a ++ b) = true := by
  induction a with
  | nil => rfl
  | cons c cs ih => simp [startsWithList, ih]

theorem strStartsWith_self_append (p s : String) : strStartsWith p (p ++ s) = true := by
  unfold strStartsWith
  show startsWithList p.data (p ++ s).data = true
  rw [String.data_append]
  exact startsWithList_self_append _ _

/-- Normal form of activation with `activate = true`. -/
theorem v2_toggleactivateLV_true (env : Env) (vg lv : String) :
    V2.toggleactivateLV env vg lv true =
      (runCommand env "lvchange" ["-K", vg ++ "/" ++ lv, "-a", "y"],
        [Invocation.mk "lvchange" ["-K", vg ++ "/" ++ lv, "-a", "y"]]) := rfl

theorem v2_create_fail (env : Env) (lvname vgname lvpoolname size fstype parent : String)
    (kind : Kind) (e : String)
    (h : (runCommand env "lvcreate" (lvcreateArgs lvname vgname lvpoolname size parent)).2 = some e) :
    V2.createLVMVolume env lvname vgname lvpoolname size fstype parent kind =
      (((runCommand env "lvcreate" (lvcreateArgs lvname vgname lvpoolname size parent)).1,
          some (errWrap "Unable to create volume" e)),
        [Invocation.mk "lvcreate" (lvcreateArgs lvname vgname lvpoolname size parent)]) := by
  simp only [V2.createLVMVolume, h]

theorem v2_activate_fail (env : Env) (lvname vgname lvpoolname size fstype parent : String)
    (kind : Kind) (e : String)
    (h1 : (runCommand env "lvcreate" (lvcreateArgs lvname vgname lvpoolname size parent)).2 = none)
    (h2 : (runCommand env "lvchange" ["-K", vgname ++ "/" ++ lvname, "-a", "y"]).2 = some e) :
    V2.createLVMVolume env lvname vgname lvpoolname size fstype parent kind =
      (((runCommand env "lvchange" ["-K", vgname ++ "/" ++ lvname, "-a", "y"]).1,
          some (errWrap "Unable to activate thin volume" e)),
        [Invocation.mk "lvcreate" (lvcreateArgs lvname vgname lvpoolname size parent),
          Invocation.mk "lvchange" ["-K", vgname ++ "/" ++ lvname, "-a", "y"]]) := by
  simp only [V2.createLVMVolume, v2_toggleactivateLV_true, h1, h2]

theorem v2_success_noparent (env : Env) (lvname vgname lvpoolname size fstype : String)
    (kind : Kind)
    (h1 : (runCommand env "lvcreate" (lvcreateArgs lvname vgname lvpoolname size "")).2 = none)
    (h2 : (runCommand env "lvchange" ["-K", vgname ++ "/" ++ lvname, "-a", "y"]).2 = none) :
    V2.createLVMVolume env lvname vgname lvpoolname size fstype "" kind =
      (runCommand env ("mkfs." ++ fstype)
          ((if fstype = "ext4" then ["-E", "nodiscard,lazy_itable_init=0,lazy_journal_init=0"]
            else if fstype = "xfs" then ["-K"] else []) ++ [filepathJoin ["/dev/", vgname, lvname]]),
        [Invocation.mk "lvcreate" (lvcreateArgs lvname vgname lvpoolname size ""),
          Invocation.mk "lvchange" ["-K", vgname ++ "/" ++ lvname, "-a", "y"],
          Invocation.mk ("mkfs." ++ fstype)
            ((if fstype = "ext4" then ["-E", "nodiscard,lazy_itable_init=0,lazy_journal_init=0"]
              else if fstype = "xfs" then ["-K"] else []) ++ [filepathJoin ["/dev/", vgname, lvname]])]) := by
  simp only [V2.createLVMVolume, v2_toggleactivateLV_true, h1, h2]
  simp

theorem v2_success_parent (env : Env) (lvname vgname lvpoolname size fstype parent : String)
    (kind : Kind) (hp : parent ≠ "")
    (h1 : (runCommand env "lvcreate" (lvcreateArgs lvname vgname lvpoolname size parent)).2 = none)
    (h2 : (runCommand env "lvchange" ["-K", vgname ++ "/" ++ lvname, "-a", "y"]).2 = none) :
    V2.createLVMVolume env lvname vgname lvpoolname size fstype parent kind =
      (runCommand env "lvchange" ["-K", vgname ++ "/" ++ lvname, "-a", "y"],
        [Invocation.mk "lvcreate" (lvcreateArgs lvname vgname lvpoolname size parent),
          Invocation.mk "lvchange" ["-K", vgname ++ "/" ++ lvname, "-a", "y"]]) := by
  simp only [V2.createLVMVolume, v2_toggleactivateLV_true, h1, h2]
  simp [hp]

/-! ## Step-identifying errors (C8) and argument shaping (C9) -/

theorem errWrap_create_activate_ne (e e2 : String) :
    errWrap "Unable to create volume" e ≠ errWrap "Unable to activate thin volume" e2 := by
  intro h
  have hd := congrArg String.data h
  simp only [errWrap, String.data_append] at hd
  have h11 := congrArg (fun l => l.take 11) hd
  simp only at h11
  rw [List.take_append_of_le_length (by decide), List.take_append_of_le_length (by decide),
    List.take_append_of_le_length (by decide), List.take_append_of_le_length (by decide)] at h11
  exact absurd h11 (by decide)

/-- **C8**: in the multi-step volume creation of `V2`, a create failure
is wrapped as a create-step error and the operation stops after the
single `lvcreate` invocation (no activation, no formatting, no
compensating command); an activation failure is wrapped as an
activation-specific error and the operation stops after `lvcreate` and
`lvchange`; the two wrapped errors are distinct for all underlying
errors. -/
theorem createLVMVolume_step_errors (env : Env)
    (lvname vgname lvpoolname size fstype parent : String) (kind : Kind) :
    (∀ e, (runCommand env "lvcreate" (lvcreateArgs lvname vgname lvpoolname size parent)).2 = some e →
      V2.createLVMVolume env lvname vgname lvpoolname size fstype parent kind =
        (((runCommand env "lvcreate" (lvcreateArgs lvname vgname lvpoolname size parent)).1,
            some (errWrap "Unable to create volume" e)),
          [Invocation.mk "lvcreate" (lvcreateArgs lvname vgname lvpoolname size parent)])) ∧
    ((runCommand env "lvcreate" (lvcreateArgs lvname vgname lvpoolname size parent)).2 = none →
      ∀ e, (runCommand env "lvchange" ["-K", vgname ++ "/" ++ lvname, "-a", "y"]).2 = some e →
      V2.createLVMVolume env lvname vgname lvpoolname size fstype parent kind =
        (((runCommand env "lvchange" ["-K", vgname ++ "/" ++ lvname, "-a", "y"]).1,
            some (errWrap "Unable to activate thin volume" e)),
          [Invocation.mk "lvcreate" (lvcreateArgs lvname vgname lvpoolname size parent),
            Invocation.mk "lvchange" ["-K", vgname ++ "/" ++ lvname, "-a", "y"]])) ∧
    (∀ e e2, errWrap "Unable to create volume" e ≠ errWrap "Unable to activate thin volume" e2) := by
  refine ⟨?_, ?_, errWrap_create_activate_ne⟩
  · intro e he
    exact v2_create_fail env lvname vgname lvpoolname size fstype parent kind e he
  · intro h1 e h2
    exact v2_activate_fail env lvname vgname lvpoolname size fstype parent kind e h1 h2

/-- Witness for **C8**: a failing create aborts with the create-step
error after one invocation; a failing activation aborts with the
activation-step error after two invocations. -/
theorem createLVMVolume_step_errors_witness :
    V2.createLVMVolume envCreateFails "lv1" "vg0" "pool0" "1G" "ext4" "" Kind.active =
      (("Volume group \"vg0\" not found", some "Unable to create volume: exit status 5"),
        [Invocation.mk "lvcreate" ["--virtualsize", "1G", "--name", "lv1", "--thin", "vg0/pool0"]]) ∧
    V2.createLVMVolume envActivateFails "lv1" "vg0" "pool0" "1G" "ext4" "" Kind.active =
      (("Failed to activate", some "Unable to activate thin volume: exit status 5"),
        [Invocation.mk "lvcreate" ["--virtualsize", "1G", "--name", "lv1", "--thin", "vg0/pool0"],
          Invocation.mk "lvchange" ["-K", "vg0/lv1", "-a", "y"]]) := by
  constructor
  · have h := (createLVMVolume_step_errors envCreateFails "lv1" "vg0" "pool0" "1G" "ext4" ""
      Kind.active).1 "exit status 5" (by decide)
    rw [h]
    decide
  · have h := (createLVMVolume_step_errors envActivateFails "lv1" "vg0" "pool0" "1G" "ext4" ""
      Kind.active).2.1 (by decide) "exit status 5" (by decide)
    rw [h]
    decide

/-- **C9**: the create command's argument list is shaped by the parent:
with a non-empty parent it names the new volume and snapshots
`<group>/<parent>` (neither the size nor the pool appears); with an
empty parent it creates a thin volume of the requested virtual size
from `<group>/<poolname>`.  In both revisions the first issued command
is `lvcreate` with exactly these arguments. -/
theorem createLVMVolume_create_args (env : Env) (lock : Mutex)
    (lvname vgname lvpoolname size fstype parent : String) (kind : Kind) :
    (parent ≠ "" →
      lvcreateArgs lvname vgname lvpoolname size parent =
        ["--name", lvname, "--snapshot", vgname ++ "/" ++ parent]) ∧
    (parent = "" →
      lvcreateArgs lvname vgname lvpoolname size parent =
        ["--virtualsize", size, "--name", lvname, "--thin", vgname ++ "/" ++ lvpoolname]) ∧
    (V2.createLVMVolume env lvname vgname lvpoolname size fstype parent kind).2.head? =
      some (Invocation.mk "lvcreate" (lvcreateArgs lvname vgname lvpoolname size parent)) ∧
    (V1.createLVMVolume env lock lvname vgname lvpoolname size parent kind).2.head? =
      some (Invocation.mk "lvcreate" (lvcreateArgs lvname vgname lvpoolname size parent)) := by
  refine ⟨fun hp => by simp [lvcreateArgs, hp], fun hp => by simp [lvcreateArgs, hp], ?_, ?_⟩
  · cases h1 : (runCommand env "lvcreate" (lvcreateArgs lvname vgname lvpoolname size parent)).2 with
    | some e =>
      rw [v2_create_fail env lvname vgname lvpoolname size fstype parent kind e h1]
      rfl
    | none =>
      cases h2 : (runCommand env "lvchange" ["-K", vgname ++ "/" ++ lvname, "-a", "y"]).2 with
      | some e =>
        rw [v2_activate_fail env lvname vgname lvpoolname size fstype parent kind e h1 h2]
        rfl
      | none =>
        by_cases hp : parent = ""
        · subst hp
          rw [v2_success_noparent env lvname vgname lvpoolname size fstype kind h1 h2]
          rfl
        · rw [v2_success_parent env lvname vgname lvpoolname size fstype parent kind hp h1 h2]
          rfl
  · simp only [V1.createLVMVolume]
    cases h1 : (runCommand env "lvcreate" (lvcreateArgs lvname vgname lvpoolname size parent)).2 <;>
      simp

/-- Witness for **C9** at concrete names: the snapshot form and the
thin-volume form of the `lvcreate` arguments. -/
theorem createLVMVolume_create_args_witness :
    lvcreateArgs "lv2" "vg0" "pool0" "1G" "lv1" = ["--name", "lv2", "--snapshot", "vg0/lv1"] ∧
    lvcreateArgs "lv1" "vg0" "pool0" "1G" "" =
      ["--virtualsize", "1G", "--name", "lv1", "--thin", "vg0/pool0"] := by
  constructor
  · have h := (createLVMVolume_create_args envAllOk ⟨0⟩ "lv2" "vg0" "pool0" "1G" "ext4" "lv1"
      Kind.active).1 (by decide)
    rw [h]
    decide
  · have h := (createLVMVolume_create_args envAllOk ⟨0⟩ "lv1" "vg0" "pool0" "1G" "ext4" ""
      Kind.active).2.1 rfl
    rw [h]
    decide

/-! ## Formatting policy (C5) -/

/-- **C5**: with a non-empty parent, `V2.createLVMVolume` never issues
an `mkfs.*` invocation; with an empty parent, an `mkfs.*` invocation is
issued exactly when the create step and then the activation step both
succeeded, and in that case the trace is `lvcreate`, `lvchange`,
`mkfs.<fstype>` in this order — formatting comes only after successful
activation. -/
theorem createLVMVolume_format_policy (env : Env)
    (lvname vgname lvpoolname size fstype parent : String) (kind : Kind) :
    (parent ≠ "" →
      ∀ inv ∈ (V2.createLVMVolume env lvname vgname lvpoolname size fstype parent kind).2,
        strStartsWith "mkfs." inv.cmd = false) ∧
    (parent = "" →
      (((runCommand env "lvcreate" (lvcreateArgs lvname vgname lvpoolname size parent)).2 = none ∧
          (runCommand env "lvchange" ["-K", vgname ++ "/" ++ lvname, "-a", "y"]).2 = none) →
        (V2.createLVMVolume env lvname vgname lvpoolname size fstype parent kind).2 =
          [Invocation.mk "lvcreate" (lvcreateArgs lvname vgname lvpoolname size parent),
            Invocation.mk "lvchange" ["-K", vgname ++ "/" ++ lvname, "-a", "y"],
            Invocation.mk ("mkfs." ++ fstype)
              ((if fstype = "ext4" then ["-E", "nodiscard,lazy_itable_init=0,lazy_journal_init=0"]
                else if fstype = "xfs" then ["-K"] else []) ++
                [filepathJoin ["/dev/", vgname, lvname]])]) ∧
      ((∃ inv ∈ (V2.createLVMVolume env lvname vgname lvpoolname size fstype parent kind).2,
          strStartsWith "mkfs." inv.cmd = true) ↔
        ((runCommand env "lvcreate" (lvcreateArgs lvname vgname lvpoolname size parent)).2 = none ∧
          (runCommand env "lvchange" ["-K", vgname ++ "/" ++ lvname, "-a", "y"]).2 = none))) := by
  constructor
  · intro hp inv hmem
    cases h1 : (runCommand env "lvcreate" (lvcreateArgs lvname vgname lvpoolname size parent)).2 with
    | some e =>
      rw [v2_create_fail env lvname vgname lvpoolname size fstype parent kind e h1] at hmem
      simp only [List.mem_singleton] at hmem
      subst hmem
      exact (by decide : strStartsWith "mkfs." "lvcreate" = false)
    | none =>
      cases h2 : (runCommand env "lvchange" ["-K", vgname ++ "/" ++ lvname, "-a", "y"]).2 with
      | some e =>
        rw [v2_activate_fail env lvname vgname lvpoolname size fstype parent kind e h1 h2] at hmem
        simp only [List.mem_cons, List.mem_singleton, List.not_mem_nil, or_false] at hmem
        rcases hmem with hmem | hmem <;> subst hmem
        · exact (by decide : strStartsWith "mkfs." "lvcreate" = false)
        · exact (by decide : strStartsWith "mkfs." "lvchange" = false)
      | none =>
        rw [v2_success_parent env lvname vgname lvpoolname size fstype parent kind hp h1 h2] at hmem
        simp only [List.mem_cons, List.mem_singleton, List.not_mem_nil, or_false] at hmem
        rcases hmem with hmem | hmem <;> subst hmem
        · exact (by decide : strStartsWith "mkfs." "lvcreate" = false)
        · exact (by decide : strStartsWith "mkfs." "lvchange" = false)
  · intro hp
    subst hp
    constructor
    · rintro ⟨h1, h2⟩
      rw [v2_success_noparent env lvname vgname lvpoolname size fstype kind h1 h2]
    · constructor
      · rintro ⟨inv, hmem, hpre⟩
        cases h1 : (runCommand env "lvcreate" (lvcreateArgs lvname vgname lvpoolname size "")).2 with
        | some e =>
          rw [v2_create_fail env lvname vgname lvpoolname size fstype "" kind e h1] at hmem
          simp only [List.mem_singleton] at hmem
          subst hmem
          exact absurd (show strStartsWith "mkfs." "lvcreate" = true from hpre) (by decide)
        | none =>
          cases h2 : (runCommand env "lvchange" ["-K", vgname ++ "/" ++ lvname, "-a", "y"]).2 with
          | some e =>
            rw [v2_activate_fail env lvname vgname lvpoolname size fstype "" kind e h1 h2] at hmem
            simp only [List.mem_cons, List.mem_singleton, List.not_mem_nil, or_false] at hmem
            rcases hmem with hmem | hmem <;> subst hmem
            · exact absurd (show strStartsWith "mkfs." "lvcreate" = true from hpre) (by decide)
            · exact absurd (show strStartsWith "mkfs." "lvchange" = true from hpre) (by decide)
          | none => exact ⟨rfl, rfl⟩
      · rintro ⟨h1, h2⟩
        refine ⟨Invocation.mk ("mkfs." ++ fstype)
          ((if fstype = "ext4" then ["-E", "nodiscard,lazy_itable_init=0,lazy_journal_init=0"]
            else if fstype = "xfs" then ["-K"] else []) ++
            [filepathJoin ["/dev/", vgname, lvname]]), ?_, ?_⟩
        · rw [v2_success_noparent env lvname vgname lvpoolname size fstype kind h1 h2]
          simp
        · exact strStartsWith_self_append "mkfs." fstype

/-- Witness for **C5**: with a parent, a trace invocation is not an
`mkfs.*` command; without a parent and with create and activation
succeeding, the trace is exactly create, activate, format. -/
theorem createLVMVolume_format_policy_witness :
    strStartsWith "mkfs." (Invocation.mk "lvchange" ["-K", "vg0/lv2", "-a", "y"]).cmd = false ∧
    (V2.createLVMVolume envAllOk "lv1" "vg0" "pool0" "1G" "ext4" "" Kind.active).2 =
      [Invocation.mk "lvcreate" ["--virtualsize", "1G", "--name", "lv1", "--thin", "vg0/pool0"],
        Invocation.mk "lvchange" ["-K", "vg0/lv1", "-a", "y"],
        Invocation.mk "mkfs.ext4"
          ["-E", "nodiscard,lazy_itable_init=0,lazy_journal_init=0", "/dev/vg0/lv1"]] := by
  constructor
  · exact (createLVMVolume_format_policy envAllOk "lv2" "vg0" "pool0" "1G" "ext4" "lv1"
      Kind.active).1 (by decide) (Invocation.mk "lvchange" ["-K", "vg0/lv2", "-a", "y"]) (by decide)
  · have h := ((createLVMVolume_format_policy envAllOk "lv1" "vg0" "pool0" "1G" "ext4" ""
      Kind.active).2 rfl).1 ⟨by decide, by decide⟩
    rw [h]
    decide

/-! ## Filesystem flag selection (C7) and the unvalidated mkfs name (C10) -/

/-- **C7**: the format step passes, for `ext4`, the
`-E nodiscard,lazy_itable_init=0,lazy_journal_init=0` flags; for `xfs`
the force flag `-K`; for any other filesystem type no extra flags; and
in every case the final argument is the device path
`/dev/<group>/<volume>`.  Stated for the standalone `formatVolume` of
`V1` and for the inline format step of `V2.createLVMVolume`. -/
theorem formatVolume_flag_selection (env : Env) (vgname lvname fstype : String)
    (hvg : plainName vgname) (hlv : plainName lvname) :
    (V1.formatVolume env vgname lvname fstype).2 =
      [Invocation.mk ("mkfs." ++ fstype)
        ((if fstype = "ext4" then ["-E", "nodiscard,lazy_itable_init=0,lazy_journal_init=0"]
          else if fstype = "xfs" then ["-K"] else []) ++ ["/dev/" ++ vgname ++ "/" ++ lvname])] ∧
    (∀ lvpoolname size kind,
      (runCommand env "lvcreate" (lvcreateArgs lvname vgname lvpoolname size "")).2 = none →
      (runCommand env "lvchange" ["-K", vgname ++ "/" ++ lvname, "-a", "y"]).2 = none →
      (V2.createLVMVolume env lvname vgname lvpoolname size fstype "" kind).2.getLast? =
        some (Invocation.mk ("mkfs." ++ fstype)
          ((if fstype = "ext4" then ["-E", "nodiscard,lazy_itable_init=0,lazy_journal_init=0"]
            else if fstype = "xfs" then ["-K"] else []) ++
            ["/dev/" ++ vgname ++ "/" ++ lvname]))) := by
  constructor
  · simp only [V1.formatVolume]
    rw [filepathJoin_dev_slash hvg hlv]
  · intro lvpoolname size kind h1 h2
    rw [v2_success_noparent env lvname vgname lvpoolname size fstype kind h1 h2,
      filepathJoin_dev_slash hvg hlv]
    rfl

/-- Witness for **C7** at a concrete `ext4` format. -/
theorem formatVolume_flag_selection_witness :
    (V1.formatVolume envAllOk "vg0" "lv1" "ext4").2 =
      [Invocation.mk "mkfs.ext4"
        ["-E", "nodiscard,lazy_itable_init=0,lazy_journal_init=0", "/dev/vg0/lv1"]] := by
  have h := (formatVolume_flag_selection envAllOk "vg0" "lv1" "ext4" (by decide) (by decide)).1
  rw [h]
  decide

/-- **C10**: the format step concatenates `"mkfs."` with the
caller-supplied filesystem type without validating it — for every
`fstype`, including the empty string, the single command issued by
`formatVolume` is named `mkfs.<fstype>`, its final argument is the
joined device path, and the `V2` inline format step behaves the same
way. -/
theorem mkfs_name_unvalidated (env : Env) (vgname lvname fstype : String) :
    (V1.formatVolume env vgname lvname fstype).2.map Invocation.cmd = ["mkfs." ++ fstype] ∧
    (∀ inv ∈ (V1.formatVolume env vgname lvname fstype).2,
      inv.args.getLast? = some (filepathJoin ["/dev/", vgname, lvname])) ∧
    (∀ lvpoolname size kind,
      (runCommand env "lvcreate" (lvcreateArgs lvname vgname lvpoolname size "")).2 = none →
      (runCommand env "lvchange" ["-K", vgname ++ "/" ++ lvname, "-a", "y"]).2 = none →
      (V2.createLVMVolume env lvname vgname lvpoolname size fstype "" kind).2.map Invocation.cmd =
        ["lvcreate", "lvchange", "mkfs." ++ fstype]) := by
  refine ⟨by simp [V1.formatVolume], ?_, ?_⟩
  · intro inv hmem
    simp only [V1.formatVolume, List.mem_singleton] at hmem
    subst hmem
    by_cases h4 : fstype = "ext4"
    · simp [h4]
    · by_cases hx : fstype = "xfs"
      · simp [hx]
      · simp [h4, hx]
  · intro lvpoolname size kind h1 h2
    rw [v2_success_noparent env lvname vgname lvpoolname size fstype kind h1 h2]
    simp

/-- Witness for **C10**: an empty filesystem type still yields a
command named `"mkfs."`, and an arbitrary unsupported type is passed
through unchanged in the `V2` flow. -/
theorem mkfs_name_unvalidated_witness :
    (V1.formatVolume envAllOk "vg0" "lv1" "").2.map Invocation.cmd = ["mkfs."] ∧
    (V2.createLVMVolume envAllOk "lv1" "vg0" "pool0" "1G" "zfs" "" Kind.active).2.map
      Invocation.cmd = ["lvcreate", "lvchange", "mkfs.zfs"] := by
  constructor
  · have h := (mkfs_name_unvalidated envAllOk "vg0" "lv1" "").1
    rw [h]
    decide
  · have h := (mkfs_name_unvalidated envAllOk "vg0" "lv1" "zfs").2.2 "pool0" "1G" Kind.active
      (by decide) (by decide)
    rw [h]
    decide

/-! ## Unmount tolerance during removal (C3) -/

/-- **C3** (amended): in the `umount`-based removal of revision `V1`, a
failed unmount whose output contains `"not mounted"` is tolerated and
the `lvremove` step still runs; any other unmount failure aborts the
removal with a wrapped unmount error before `lvremove` is issued; a
successful unmount proceeds to `lvremove`.  In the
`blkdeactivate`-based removal of revision `V2`, **any** deactivate
failure — whatever its output — aborts the removal with the wrapped
unmount error before `lvremove` is issued, and only a successful
deactivate proceeds to `lvremove`.  In both revisions the device path
handed to the unmount/deactivate tool is `/dev/<group>/<volume>`. -/
theorem removeLVMVolume_unmount_tolerance (env : Env) (lock : Mutex) (lvname vgname : String)
    (hvg : plainName vgname) (hlv : plainName lvname) :
    (∀ e, (runCommand env "umount"
        ["--lazy", "--force", "--all-targets", "/dev/" ++ vgname ++ "/" ++ lvname]).2 = some e →
      (strContains (runCommand env "umount"
          ["--lazy", "--force", "--all-targets", "/dev/" ++ vgname ++ "/" ++ lvname]).1
          "not mounted" = true →
        V1.removeLVMVolume env lock lvname vgname =
          (runCommand env "lvremove" ["-y", vgname ++ "/" ++ lvname],
            [Invocation.mk "umount"
                ["--lazy", "--force", "--all-targets", "/dev/" ++ vgname ++ "/" ++ lvname],
              Invocation.mk "lvremove" ["-y", vgname ++ "/" ++ lvname]])) ∧
      (strContains (runCommand env "umount"
          ["--lazy", "--force", "--all-targets", "/dev/" ++ vgname ++ "/" ++ lvname]).1
          "not mounted" = false →
        V1.removeLVMVolume env lock lvname vgname =
          (((runCommand env "umount"
              ["--lazy", "--force", "--all-targets", "/dev/" ++ vgname ++ "/" ++ lvname]).1,
            some (errWrap "Unable to unmount volume" e)),
            [Invocation.mk "umount"
              ["--lazy", "--force", "--all-targets", "/dev/" ++ vgname ++ "/" ++ lvname]]))) ∧
    ((runCommand env "umount"
        ["--lazy", "--force", "--all-targets", "/dev/" ++ vgname ++ "/" ++ lvname]).2 = none →
      V1.removeLVMVolume env lock lvname vgname =
        (runCommand env "lvremove" ["-y", vgname ++ "/" ++ lvname],
          [Invocation.mk "umount"
              ["--lazy", "--force", "--all-targets", "/dev/" ++ vgname ++ "/" ++ lvname],
            Invocation.mk "lvremove" ["-y", vgname ++ "/" ++ lvname]])) ∧
    (∀ e, (runCommand env "blkdeactivate" ["-u", "/dev/" ++ vgname ++ "/" ++ lvname]).2 = some e →
      V2.removeLVMVolume env lvname vgname =
        (((runCommand env "blkdeactivate" ["-u", "/dev/" ++ vgname ++ "/" ++ lvname]).1,
            some (errWrap "Unable to unmount volume" e)),
          [Invocation.mk "blkdeactivate" ["-u", "/dev/" ++ vgname ++ "/" ++ lvname]])) ∧
    ((runCommand env "blkdeactivate" ["-u", "/dev/" ++ vgname ++ "/" ++ lvname]).2 = none →
      V2.removeLVMVolume env lvname vgname =
        (runCommand env "lvremove" ["-y", vgname ++ "/" ++ lvname],
          [Invocation.mk "blkdeactivate" ["-u", "/dev/" ++ vgname ++ "/" ++ lvname],
            Invocation.mk "lvremove" ["-y", vgname ++ "/" ++ lvname]])) ∧
    (V2.removeLVMVolume env lvname vgname).2.head? =
      some (Invocation.mk "blkdeactivate" ["-u", "/dev/" ++ vgname ++ "/" ++ lvname]) := by
  have hpath := filepathJoin_dev hvg hlv
  refine ⟨?_, ?_, ?_, ?_, ?_⟩
  · intro e he
    constructor
    · intro hc
      simp [V1.removeLVMVolume, hpath, he, hc]
    · intro hc
      simp [V1.removeLVMVolume, hpath, he, hc]
  · intro hnone
    simp [V1.removeLVMVolume, hpath, hnone]
  · intro e he
    simp [V2.removeLVMVolume, hpath, he]
  · intro hnone
    simp [V2.removeLVMVolume, hpath, hnone]
  · simp only [V2.removeLVMVolume, hpath]
    cases h1 : (runCommand env "blkdeactivate" ["-u", "/dev/" ++ vgname ++ "/" ++ lvname]).2 <;>
      simp

/-- Witness for **C3**: a `"not mounted"` unmount failure is tolerated
by `V1` and removal succeeds; an unrelated unmount failure aborts `V1`
before `lvremove`; a failing `blkdeactivate` aborts `V2` before
`lvremove`; a succeeding `blkdeactivate` lets `V2` proceed to
`lvremove`. -/
theorem removeLVMVolume_unmount_tolerance_witness :
    V1.removeLVMVolume envNotMounted ⟨0⟩ "lv1" "vg0" =
      (("removed", none),
        [Invocation.mk "umount" ["--lazy", "--force", "--all-targets", "/dev/vg0/lv1"],
          Invocation.mk "lvremove" ["-y", "vg0/lv1"]]) ∧
    V1.removeLVMVolume envUnmountBusy ⟨0⟩ "lv1" "vg0" =
      (("umount: /dev/vg0/lv1: target is busy.", some "Unable to unmount volume: exit status 32"),
        [Invocation.mk "umount" ["--lazy", "--force", "--all-targets", "/dev/vg0/lv1"]]) ∧
    V2.removeLVMVolume envNotMounted "lv1" "vg0" =
      (("umount: /dev/vg0/lv1: not mounted.", some "Unable to unmount volume: exit status 32"),
        [Invocation.mk "blkdeactivate" ["-u", "/dev/vg0/lv1"]]) ∧
    V2.removeLVMVolume envAllOk "lv1" "vg0" =
      (("", none),
        [Invocation.mk "blkdeactivate" ["-u", "/dev/vg0/lv1"],
          Invocation.mk "lvremove" ["-y", "vg0/lv1"]]) := by
  refine ⟨?_, ?_, ?_, ?_⟩
  · have h := ((removeLVMVolume_unmount_tolerance envNotMounted ⟨0⟩ "lv1" "vg0" (by decide)
      (by decide)).1 "exit status 32" (by decide)).1 (by decide)
    rw [h]
    decide
  · have h := ((removeLVMVolume_unmount_tolerance envUnmountBusy ⟨0⟩ "lv1" "vg0" (by decide)
      (by decide)).1 "exit status 32" (by decide)).2 (by decide)
    rw [h]
    decide
  · have h := (removeLVMVolume_unmount_tolerance envNotMounted ⟨0⟩ "lv1" "vg0" (by decide)
      (by decide)).2.2.1 "exit status 32" (by decide)
    rw [h]
    decide
  · have h := (removeLVMVolume_unmount_tolerance envAllOk ⟨0⟩ "lv1" "vg0" (by decide)
      (by decide)).2.2.2.1 (by decide)
    rw [h]
    decide

/-- **C3 counterexample**: in the `blkdeactivate`-based removal of
revision `V2`, a deactivate failure whose output does contain
`"not mounted"` is *not* tolerated — the operation aborts with the
wrapped unmount error and `lvremove` is never issued, contradicting
the claim as stated. -/
theorem removeLVMVolume_blkdeactivate_not_tolerated :
    strContains (runCommand envNotMounted "blkdeactivate" ["-u", "/dev/vg0/lv1"]).1
      "not mounted" = true ∧
    (V2.removeLVMVolume envNotMounted "lv1" "vg0").1.2 =
      some "Unable to unmount volume: exit status 32" ∧
    (V2.removeLVMVolume envNotMounted "lv1" "vg0").2 =
      [Invocation.mk "blkdeactivate" ["-u", "/dev/vg0/lv1"]] := by
  decide

/-! ## Serialization of command execution (C1) -/

theorem countP_le_of_imp {α : Type} {p q : α → Prop} [DecidablePred p] [DecidablePred q]
    (s : Multiset α) (h : ∀ a ∈ s, p a → q a) :
    Multiset.countP p s ≤ Multiset.countP q s := by
  induction s using Multiset.induction_on with
  | empty => simp
  | cons a s ih =>
    simp only [Multiset.countP_cons]
    have ha := h a (Multiset.mem_cons_self a s)
    have hs : ∀ b ∈ s, p b → q b := fun b hb => h b (Multiset.mem_cons_of_mem hb)
    by_cases hp : p a
    · rw [if_pos hp, if_pos (ha hp)]
      exact Nat.add_le_add (ih hs) le_rfl
    · rw [if_neg hp]
      exact le_trans (Nat.le_of_eq (Nat.add_zero _))
        (le_trans (ih hs) (Nat.le_add_right _ _))

theorem countP_replace {α : Type} [DecidableEq α] (p : α → Prop) [DecidablePred p]
    {s : Multiset α} {a : α} (h : a ∈ s) (b : α) :
    Multiset.countP p (b ::ₘ s.erase a) + (if p a then 1 else 0) =
      Multiset.countP p s + (if p b then 1 else 0) := by
  conv_rhs => rw [← Multiset.cons_erase h]
  rw [Multiset.countP_cons, Multiset.countP_cons]
  omega

theorem critHead_acquire (g m : Nat) (rest : List Act) :
    critHead g (Act.acquire m :: rest) = false := rfl

theorem critHead_nil (g : Nat) : critHead g [] = false := rfl

theorem critHead_beginSpawn (g : Nat) (rest : List Act) :
    critHead g (Act.beginSpawn :: rest) = true := rfl

theorem critHead_endSpawn (g : Nat) (rest : List Act) :
    critHead g (Act.endSpawn :: rest) = true := rfl

theorem critHead_release_self (g : Nat) (rest : List Act) :
    critHead g (Act.release g :: rest) = true := by
  simp [critHead]

theorem critHead_spawnSeq (g k : Nat) : critHead g (spawnSeq g k) = true := by
  cases k <;> rfl

theorem critHead_lockedTrace (g k : Nat) : critHead g (lockedTrace g k) = false := rfl

/-- In flight means the process is between `beginSpawn` and `endSpawn`,
hence inside the critical section. -/
theorem inFlight_le_crit (g : Nat) (c : Config) :
    inFlight c ≤ Multiset.countP (fun p => critHead g p = true) c.procs := by
  unfold inFlight
  apply countP_le_of_imp
  intro p hp hhead
  cases p with
  | nil => simp at hhead
  | cons a rest =>
    simp only [List.head?_cons, Option.some.injEq] at hhead
    subst hhead
    rfl

theorem residualShape_acquire {g m : Nat} {rest : List Act}
    (h : residualShape g (Act.acquire m :: rest)) : m = g ∧ ∃ k, rest = spawnSeq g k := by
  rcases h with h | ⟨k, hk⟩ | ⟨k, hk⟩ | ⟨k, hk⟩ | hk | hk
  · simp at h
  · rw [lockedTrace] at hk
    injection hk with h1 h2
    injection h1 with h1
    exact ⟨h1, k, h2⟩
  · cases k <;> simp [spawnSeq] at hk
  · simp at hk
  · simp at hk
  · simp at hk

theorem residualShape_release {g m : Nat} {rest : List Act}
    (h : residualShape g (Act.release m :: rest)) : m = g ∧ rest = [] := by
  rcases h with h | ⟨k, hk⟩ | ⟨k, hk⟩ | ⟨k, hk⟩ | hk | hk
  · simp at h
  · rw [lockedTrace] at hk
    simp at hk
  · cases k <;> simp [spawnSeq] at hk
  · simp at hk
  · injection hk with h1 h2
    injection h1 with h1
    exact ⟨h1, h2⟩
  · simp at hk

theorem residualShape_beginSpawn {g : Nat} {rest : List Act}
    (h : residualShape g (Act.beginSpawn :: rest)) :
    rest = [Act.endSpawn, Act.release g] ∨ ∃ k, rest = Act.endSpawn :: spawnSeq g k := by
  rcases h with h | ⟨k, hk⟩ | ⟨k, hk⟩ | ⟨k, hk⟩ | hk | hk
  · simp at h
  · rw [lockedTrace] at hk
    simp at hk
  · cases k with
    | zero =>
      simp only [spawnSeq] at hk
      injection hk with _ h2
      exact Or.inl h2
    | succ k =>
      simp only [spawnSeq] at hk
      injection hk with _ h2
      exact Or.inr ⟨k, h2⟩
  · simp at hk
  · simp at hk
  · simp at hk

theorem residualShape_endSpawn {g : Nat} {rest : List Act}
    (h : residualShape g (Act.endSpawn :: rest)) :
    (∃ k, rest = spawnSeq g k) ∨ rest = [Act.release g] := by
  rcases h with h | ⟨k, hk⟩ | ⟨k, hk⟩ | ⟨k, hk⟩ | hk | hk
  · simp at h
  · rw [lockedTrace] at hk
    simp at hk
  · cases k <;> simp [spawnSeq] at hk
  · injection hk with _ h2
    exact Or.inl ⟨k, h2⟩
  · simp at hk
  · injection hk with _ h2
    exact Or.inr h2

/-- The invariant is preserved by every step. -/
theorem serialInv_step {g : Nat} {c c2 : Config} (hinv : SerialInv g c) (hs : Step c c2) :
    SerialInv g c2 := by
  obtain ⟨hshapes, hcrit, hheld⟩ := hinv
  cases hs with
  | @acquire m rest hp hm =>
    obtain ⟨hmg, k, hrest⟩ := residualShape_acquire (hshapes _ hp)
    have hgm := hmg.symm
    subst hgm
    subst hrest
    have hrepl := countP_replace (fun q => critHead g q = true) hp (spawnSeq g k)
    simp only [critHead_acquire, critHead_spawnSeq, Bool.false_eq_true, if_false, if_true,
      reduceIte] at hrepl
    have hz : Multiset.countP (fun q => critHead g q = true) c.procs = 0 := by
      have h0 := Multiset.count_eq_zero.mpr hm
      omega
    refine ⟨?_, ?_, ?_⟩
    · intro p hpm
      rcases Multiset.mem_cons.mp hpm with rfl | hmem
      · exact Or.inr (Or.inr (Or.inl ⟨k, rfl⟩))
      · exact hshapes _ (Multiset.mem_of_mem_erase hmem)
    · dsimp only
      omega
    · dsimp only
      rw [Multiset.count_cons_self]
      omega
  | @release m rest hp =>
    obtain ⟨hmg, hrest⟩ := residualShape_release (hshapes _ hp)
    have hgm := hmg.symm
    subst hgm
    subst hrest
    have hrepl := countP_replace (fun q => critHead g q = true) hp ([] : List Act)
    simp only [critHead_release_self, critHead_nil, Bool.false_eq_true, if_false, if_true,
      reduceIte] at hrepl
    refine ⟨?_, ?_, ?_⟩
    · intro p hpm
      rcases Multiset.mem_cons.mp hpm with rfl | hmem
      · exact Or.inl rfl
      · exact hshapes _ (Multiset.mem_of_mem_erase hmem)
    · dsimp only
      omega
    · dsimp only
      rw [Multiset.count_erase_self]
      omega
  | @beginSpawn rest hp =>
    have hshape := residualShape_beginSpawn (hshapes _ hp)
    have hcr : critHead g rest = true := by
      rcases hshape with hrest | ⟨k, hrest⟩ <;> subst hrest <;> exact critHead_endSpawn g _
    have hrepl := countP_replace (fun q => critHead g q = true) hp rest
    simp only [critHead_beginSpawn, hcr, if_true, reduceIte] at hrepl
    refine ⟨?_, ?_, ?_⟩
    · intro p hpm
      rcases Multiset.mem_cons.mp hpm with rfl | hmem
      · rcases hshape with hrest | ⟨k, hrest⟩
        · exact Or.inr (Or.inr (Or.inr (Or.inr (Or.inr hrest))))
        · exact Or.inr (Or.inr (Or.inr (Or.inl ⟨k, hrest⟩)))
      · exact hshapes _ (Multiset.mem_of_mem_erase hmem)
    · dsimp only
      omega
    · dsimp only
      omega
  | @endSpawn rest hp =>
    have hshape := residualShape_endSpawn (hshapes _ hp)
    have hcr : critHead g rest = true := by
      rcases hshape with ⟨k, hrest⟩ | hrest <;> subst hrest
      · exact critHead_spawnSeq g _
      · exact critHead_release_self g _
    have hrepl := countP_replace (fun q => critHead g q = true) hp rest
    simp only [critHead_endSpawn, hcr, if_true, reduceIte] at hrepl
    refine ⟨?_, ?_, ?_⟩
    · intro p hpm
      rcases Multiset.mem_cons.mp hpm with rfl | hmem
      · rcases hshape with ⟨k, hrest⟩ | hrest
        · exact Or.inr (Or.inr (Or.inl ⟨k, hrest⟩))
        · exact Or.inr (Or.inr (Or.inr (Or.inr (Or.inl hrest))))
      · exact hshapes _ (Multiset.mem_of_mem_erase hmem)
    · dsimp only
      omega
    · dsimp only
      omega

theorem serialInv_reachable {g : Nat} {c c2 : Config} (h : Reachable c c2)
    (hinv : SerialInv g c) : SerialInv g c2 := by
  induction h with
  | refl => exact hinv
  | tail hsteps hstep ih => exact serialInv_step ih hstep

/-- Serialization of revision `V2`: for any multiset of concurrent
`runCommand` invocations, all guarded by the single package-level mutex
`g` and each spawning its attempts while holding it, every reachable
configuration has at most one external command in flight. -/
theorem runCommand_serialized (g : Nat) (ks : Multiset Nat) (c : Config)
    (h : Reachable ⟨ks.map (lockedTrace g), 0⟩ c) : inFlight c ≤ 1 := by
  have hz : Multiset.countP (fun q => critHead g q = true) (ks.map (lockedTrace g)) = 0 := by
    apply Multiset.countP_eq_zero.mpr
    intro p hp
    rcases Multiset.mem_map.mp hp with ⟨k, _, rfl⟩
    simp [critHead_lockedTrace]
  have hinv : SerialInv g ⟨ks.map (lockedTrace g), 0⟩ := by
    refine ⟨?_, ?_, ?_⟩
    · intro p hp
      rcases Multiset.mem_map.mp hp with ⟨k, _, rfl⟩
      exact Or.inr (Or.inl ⟨k, rfl⟩)
    · rw [hz]
      omega
    · simp [hz]
  exact le_trans (inFlight_le_crit g c) (serialInv_reachable h hinv).crit_le

/-- **C1 (code evaluated at the failing input)**: revision `V1` passes
`sync.Mutex` by value, so each operation locks a private copy (modelled
by distinct mutex identities 0 and 1 for two concurrent operations).
From the initial configuration with these two operations, a
configuration with **two** external commands in flight is reachable:
the operations exclude nobody, refuting at-most-one-in-flight for this
revision.  (Contrast with `runCommand_serialized`, where a single
shared mutex yields the invariant.) -/
theorem lockByValue_two_inflight :
    ∃ c : Config, Reachable ⟨{lockedTrace 0 0, lockedTrace 1 0}, 0⟩ c ∧ inFlight c = 2 := by
  have s1 : Step ⟨{lockedTrace 0 0, lockedTrace 1 0}, 0⟩
      ⟨{spawnSeq 0 0, lockedTrace 1 0}, {0}⟩ :=
    @Step.acquire ⟨{lockedTrace 0 0, lockedTrace 1 0}, 0⟩ 0 (spawnSeq 0 0)
      (by decide) (by decide)
  have s2 : Step ⟨{spawnSeq 0 0, lockedTrace 1 0}, {0}⟩
      ⟨{[Act.endSpawn, Act.release 0], lockedTrace 1 0}, {0}⟩ :=
    @Step.beginSpawn ⟨{spawnSeq 0 0, lockedTrace 1 0}, {0}⟩
      [Act.endSpawn, Act.release 0] (by decide)
  have s3 : Step ⟨{[Act.endSpawn, Act.release 0], lockedTrace 1 0}, {0}⟩
      ⟨{spawnSeq 1 0, [Act.endSpawn, Act.release 0]}, {1, 0}⟩ :=
    @Step.acquire ⟨{[Act.endSpawn, Act.release 0], lockedTrace 1 0}, {0}⟩ 1 (spawnSeq 1 0)
      (by decide) (by decide)
  have s4 : Step ⟨{spawnSeq 1 0, [Act.endSpawn, Act.release 0]}, {1, 0}⟩
      ⟨{[Act.endSpawn, Act.release 1], [Act.endSpawn, Act.release 0]}, {1, 0}⟩ :=
    @Step.beginSpawn ⟨{spawnSeq 1 0, [Act.endSpawn, Act.release 0]}, {1, 0}⟩
      [Act.endSpawn, Act.release 1] (by decide)
  exact ⟨⟨{[Act.endSpawn, Act.release 1], [Act.endSpawn, Act.release 0]}, {1, 0}⟩,
    Relation.ReflTransGen.head s1 (Relation.ReflTransGen.head s2
      (Relation.ReflTransGen.head s3 (Relation.ReflTransGen.head s4
        Relation.ReflTransGen.refl))), by decide⟩
